import Mathlib

/-!
Shallow embedding of the question-to-SQL core of the SQLWhisper repository.

The embedded code lives in `src/services/sql_validator.py`,
`src/services/prompt_builder.py`, `src/services/confidence_analyzer.py` and
`src/services/text2sql_service.py`.  Python strings are modelled as `List Char`
(ASCII inputs assumed; Python `str.lower`/`str.upper`/`\w`/`\s` are modelled on
the ASCII range, which covers every string the services handle).  Python regex
operations are translated into explicit character scanners, each annotated with
the original pattern.  Floats are modelled as exact rationals; the places where
CPython float rounding could differ (ratio thresholds, `round`) are noted where
they are introduced.
-/

namespace SQLWhisper

/-- Python-style strings are modelled as lists of characters. -/
abbrev Str := List Char

/-- Embed a Lean string literal into the model's string type. -/
def str (s : String) : Str := s.data

/-- Python `\s` (ASCII range): space, tab, newline, carriage return,
vertical tab, form feed. -/
def isPyWs (c : Char) : Bool :=
  c == ' ' || c == '\t' || c == '\n' || c == '\r' || c == '\x0b' || c == '\x0c'

/-- Python `\w` (ASCII range): letters, digits, underscore. -/
def isWordChar (c : Char) : Bool :=
  c.isAlpha || c.isDigit || c == '_'

/-- Python `str.lower` on the ASCII range. -/
def lowerS (s : Str) : Str := s.map Char.toLower

/-- Python `str.upper` on the ASCII range. -/
def upperS (s : Str) : Str := s.map Char.toUpper

/-- Drop leading characters satisfying `p` (Python `lstrip`, generalised). -/
def lstripP (p : Char → Bool) (s : Str) : Str := s.dropWhile p

/-- Drop trailing characters satisfying `p` (Python `rstrip`, generalised). -/
def rstripP (p : Char → Bool) (s : Str) : Str := (s.reverse.dropWhile p).reverse

/-- Python `str.strip()` (whitespace on both ends). -/
def pyStrip (s : Str) : Str := rstripP isPyWs (lstripP isPyWs s)

/-- Case-insensitive prefix test (Python `re.IGNORECASE` matching of a literal). -/
def ciStartsWith : Str → Str → Bool
  | [], _ => true
  | _ :: _, [] => false
  | a :: as, b :: bs => a.toLower == b.toLower && ciStartsWith as bs

/-- Index of the leftmost suffix satisfying `p` (the position where a regex
match starts).  Mirrors `re.search` scanning positions left to right. -/
def findSuffixIdx (p : Str → Bool) : Str → Option Nat
  | [] => if p [] then some 0 else none
  | c :: t => if p (c :: t) then some 0 else (findSuffixIdx p t).map (· + 1)

/-- Index of the first occurrence of `needle` (Python `str.find`, case
sensitive); `some 0` for an empty needle, as in Python. -/
def findSub (needle s : Str) : Option Nat :=
  findSuffixIdx (fun suf => needle.isPrefixOf suf) s

/-- Python `needle in s` (case sensitive). -/
def containsSub (needle s : Str) : Bool := (findSub needle s).isSome

/-- Index of the first case-insensitive occurrence of `needle`. -/
def findSubCI (needle s : Str) : Option Nat :=
  findSuffixIdx (fun suf => ciStartsWith needle suf) s

/-- Case-insensitive `needle in s`. -/
def containsSubCI (needle s : Str) : Bool := (findSubCI needle s).isSome

/-- Length of the leading whitespace run (what a greedy `\s*` consumes). -/
def wsRunLen (s : Str) : Nat := (s.takeWhile isPyWs).length

/-- Match a literal at the head of the string and return the rest. -/
def pLit (lit s : Str) : Option Str :=
  if lit.isPrefixOf s then some (s.drop lit.length) else none

/-- Case-insensitive `pLit`. -/
def pLitCI (lit s : Str) : Option Str :=
  if ciStartsWith lit s then some (s.drop lit.length) else none

/-- Greedy `\s+`: require at least one whitespace character, consume the run. -/
def pWsPlus (s : Str) : Option Str :=
  match s with
  | c :: t => if isPyWs c then some (t.dropWhile isPyWs) else none
  | [] => none

/-- Greedy `\s*`: consume the whitespace run. -/
def pWsStar (s : Str) : Str := s.dropWhile isPyWs

/-- Greedy `\w+`: require at least one word character, consume the run. -/
def pWordPlus (s : Str) : Option Str :=
  match s with
  | c :: t => if isWordChar c then some (t.dropWhile isWordChar) else none
  | [] => none

/-- Python `s.split(sep)` for a single-character separator. -/
def splitOnChar (sep : Char) : Str → List Str
  | [] => [[]]
  | c :: t =>
    if c == sep then [] :: splitOnChar sep t
    else
      match splitOnChar sep t with
      | h :: r => (c :: h) :: r
      | [] => [[c]]

/-- Python `sep.join(parts)`. -/
def joinWith (sep : Str) (parts : List Str) : Str := List.intercalate sep parts

/-- Number of occurrences of a character (Python `s.count(c)` for 1-char arg). -/
def countChar (c : Char) (s : Str) : Nat := s.count c

/-- Prefix of `s` before the first occurrence of `needle`; all of `s` when the
needle is absent. -/
def takeUntilSub (needle s : Str) : Str :=
  match findSub needle s with
  | some i => s.take i
  | none => s

/-- Index of the last occurrence of a character. -/
def lastIdxOf (c : Char) (l : Str) : Option Nat :=
  match findSub [c] l.reverse with
  | some j => some (l.length - 1 - j)
  | none => none

/-- Maximal run of word characters into tokens: Python
`re.findall(r"\b\w+\b", s)` (the accumulator holds the current word reversed). -/
def wordsOfAux (cur : Str) : Str → List Str
  | [] => if cur.isEmpty then [] else [cur.reverse]
  | c :: t =>
    if isWordChar c then wordsOfAux (c :: cur) t
    else if cur.isEmpty then wordsOfAux [] t
    else cur.reverse :: wordsOfAux [] t

/-- Python `re.findall(r"\b\w+\b", s)`. -/
def wordsOf (s : Str) : List Str := wordsOfAux [] s

/-- Does `kw` match at the head of `s` as a whole word ending (the `\b` after
the keyword)? -/
def atWordStart (kw s : Str) : Bool :=
  ciStartsWith kw s &&
    !((s.drop kw.length).head?.map isWordChar).getD false

/-- Scanner for `re.search(r"\b(kw1|kw2|...)\b", s, re.IGNORECASE)`: `prev`
is the character before the current position (for the leading `\b`). -/
def hasWordKwFrom (kws : List Str) : Option Char → Str → Bool
  | _, [] => false
  | prev, c :: t =>
    ((match prev with
      | none => true
      | some p => !isWordChar p) &&
     kws.any (fun k => atWordStart k (c :: t)))
    || hasWordKwFrom kws (some c) t

/-- Python `re.search(r"\b(kw1|...)\b", s, re.IGNORECASE) is not None`. -/
def hasWordKw (kws : List Str) (s : Str) : Bool := hasWordKwFrom kws none s

/-- Fuel-indexed scanner for `removeMarkerWs`; each step strictly shrinks the
string, so any `fuel ≥ s.length` computes the fixpoint (structural recursion
on the fuel keeps the function kernel-reducible). -/
def removeMarkerWsF (m : Str) : Nat → Str → Str
  | 0, s => s
  | fuel + 1, s =>
    match s with
    | [] => []
    | c :: t =>
      if !m.isEmpty && m.isPrefixOf (c :: t) then
        removeMarkerWsF m fuel (((c :: t).drop m.length).dropWhile isPyWs)
      else
        c :: removeMarkerWsF m fuel t

/-- Python `re.sub(marker + r"\s*", "", s)` for a non-empty literal `marker`:
remove each occurrence of the marker together with the whitespace run that
follows it, scanning left to right (used for the ```` ```sql ````/```` ``` ````
fence-stripping substitutions, which are case sensitive in the source). -/
def removeMarkerWs (m s : Str) : Str := removeMarkerWsF m s.length s

/-- Fuel-indexed scanner for `pyReplace` (see `removeMarkerWsF`). -/
def pyReplaceF (needle repl : Str) : Nat → Str → Str
  | 0, s => s
  | fuel + 1, s =>
    match s with
    | [] => []
    | c :: t =>
      if !needle.isEmpty && needle.isPrefixOf (c :: t) then
        repl ++ pyReplaceF needle repl fuel ((c :: t).drop needle.length)
      else
        c :: pyReplaceF needle repl fuel t

/-- Python `s.replace(needle, repl)` for a non-empty needle (all non-overlapping
occurrences, scanning left to right). -/
def pyReplace (needle repl s : Str) : Str := pyReplaceF needle repl s.length s

/-- Fuel-indexed scanner for `removeBlockComments` (see `removeMarkerWsF`). -/
def removeBlockCommentsF : Nat → Str → Str
  | 0, s => s
  | fuel + 1, s =>
    match s with
    | [] => []
    | c :: t =>
      if (str "/*").isPrefixOf (c :: t) then
        match findSub (str "*/") (t.drop 1) with
        | some j => removeBlockCommentsF fuel ((t.drop 1).drop (j + 2))
        | none => c :: t
      else
        c :: removeBlockCommentsF fuel t

/-- Python `re.sub(r"/\*.*?\*/", "", s, flags=re.DOTALL)`: remove every
`/*...*/` block (lazy interior: the closer is the first `*/` after the
opener); scanning resumes after each removed block.  When an opener has no
closer anywhere to its right the regex cannot match there or at any later
opener, so the rest is kept verbatim. -/
def removeBlockComments (s : Str) : Str := removeBlockCommentsF s.length s

/-- Python `re.sub(r"--.*?$", "", s, flags=re.MULTILINE)`: on each line, drop
everything from the first `--` to the end of that line. -/
def removeLineComments (s : Str) : Str :=
  joinWith (str "\n") ((splitOnChar '\n' s).map (takeUntilSub (str "--")))

/-- Fuel-indexed scanner for `collapseWs` (see `removeMarkerWsF`). -/
def collapseWsF : Nat → Str → Str
  | 0, s => s
  | fuel + 1, s =>
    match s with
    | [] => []
    | c :: t =>
      if isPyWs c then ' ' :: collapseWsF fuel (t.dropWhile isPyWs)
      else c :: collapseWsF fuel t

/-- Python `re.sub(r"\s+", " ", s)`: collapse each whitespace run to one space. -/
def collapseWs (s : Str) : Str := collapseWsF s.length s

/-- Python `s.endswith(";")`. -/
def endsSemi : Str → Bool
  | [] => false
  | [c] => c == ';'
  | _ :: c :: t => endsSemi (c :: t)

/-- Decimal rendering of a natural number. -/
def natStr (n : Nat) : Str := (Nat.repr n).data

/-- Round to the nearest integer, ties to even (the rounding CPython's
`round`/`format` applies to the decimal expansion of a float; exact-rational
model). -/
def roundHalfEven (x : ℚ) : ℤ :=
  let fl := ⌊x⌋
  let fr := x - fl
  if fr < 1/2 then fl
  else if 1/2 < fr then fl + 1
  else if fl % 2 = 0 then fl else fl + 1

/-- Python `round(x, nd)` on a non-negative rational. -/
def pyRound (nd : Nat) (x : ℚ) : ℚ :=
  (roundHalfEven (x * (10 : ℚ) ^ nd) : ℚ) / (10 : ℚ) ^ nd

/-- Python `f"{x:.2%}"` for the non-negative ratios produced by the validator:
multiply by 100, two decimals, percent sign. -/
def pctFmt (q : ℚ) : Str :=
  let h : ℤ := roundHalfEven (q * 10000)
  let ip := (h / 100).toNat
  let fr := (h % 100).toNat
  natStr ip ++ [ '.' ] ++ (if fr < 10 then '0' :: natStr fr else natStr fr) ++ [ '%' ]

/-! ## `src/services/sql_validator.py` — `SQLValidator` -/

/-- The statement-keyword alternation
`(SELECT|INSERT|UPDATE|DELETE|WITH|CREATE|DROP|ALTER)` used by `clean_sql` and
`extract_sql_from_response`. -/
def kwStmt : List Str :=
  [str "SELECT", str "INSERT", str "UPDATE", str "DELETE",
   str "WITH", str "CREATE", str "DROP", str "ALTER"]

/-- The DML alternation `\b(SELECT|INSERT|UPDATE|DELETE)\b` guarding the
trailing-semicolon append. -/
def kwDml : List Str :=
  [str "SELECT", str "INSERT", str "UPDATE", str "DELETE"]

/-- The 19-keyword alternation in `clean_sql`'s line filter. -/
def kwLine19 : List Str :=
  [str "SELECT", str "FROM", str "WHERE", str "JOIN", str "GROUP", str "ORDER",
   str "LIMIT", str "INSERT", str "UPDATE", str "DELETE", str "AND", str "OR",
   str "IN", str "LIKE", str "COUNT", str "SUM", str "AVG", str "MAX", str "MIN"]

/-- Position of the leftmost case-insensitive occurrence of a statement keyword
(`re.search(r"(SELECT|...|ALTER).*?", sql, re.IGNORECASE | re.DOTALL).start()`,
where `.*?` matches the empty string). -/
def findStmtKwPos (s : Str) : Option Nat :=
  findSuffixIdx (fun suf => kwStmt.any (fun k => ciStartsWith k suf)) s

/-- Does `re.search(r";\s*(?:\n|$)", s)` match at this suffix?  The greedy
`\s*` backtracks, so a `;` matches when its whitespace run contains a newline
or extends to the end of the string. -/
def semiNlPred (suf : Str) : Bool :=
  match suf with
  | ';' :: r =>
    let run := r.takeWhile isPyWs
    run.length == r.length || run.contains '\n'
  | _ => false

/-- End position of the first `;\s*(?:\n|$)` match: the whole whitespace run
when it reaches the end of the string (`$`), otherwise up to and including the
last newline of the run. -/
def semiAEnd (s : Str) : Option Nat :=
  match findSuffixIdx semiNlPred s with
  | none => none
  | some i =>
    let r := s.drop (i + 1)
    let run := r.takeWhile isPyWs
    if run.length == r.length then some (i + 1 + run.length)
    else
      match lastIdxOf '\n' run with
      | some j => some (i + 1 + j + 1)
      | none => none

/-- Largest `k` within the leading whitespace run of `r` such that `pats`
matches (case-insensitively) at `r.drop k` — the greedy `\s*` before a
lookahead or a word that starts with a non-whitespace character. -/
def greedyWsThenCI (pats : List Str) (r : Str) : Option Nat :=
  let run := (r.takeWhile isPyWs).length
  (List.range (run + 1)).reverse.find?
    (fun k => pats.any (fun p => ciStartsWith p (r.drop k)))

/-- End position of the first `;\s*(?=\n\n)` match (zero-width lookahead). -/
def semiBEnd (s : Str) : Option Nat :=
  match findSuffixIdx
      (fun suf =>
        match suf with
        | ';' :: r => (greedyWsThenCI [str "\n\n"] r).isSome
        | _ => false) s with
  | none => none
  | some i =>
    match greedyWsThenCI [str "\n\n"] (s.drop (i + 1)) with
    | some k => some (i + 1 + k)
    | none => none

/-- The explanation-word alternation of the third `end_patterns` entry
`;\s*(?=Explanation|Note|This|The query|The SQL)`. -/
def explAfterSemi : List Str :=
  [str "Explanation", str "Note", str "This", str "The query", str "The SQL"]

/-- End position of the first `;\s*(?=Explanation|...)` match (case
insensitive; zero-width lookahead). -/
def semiCEnd (s : Str) : Option Nat :=
  match findSuffixIdx
      (fun suf =>
        match suf with
        | ';' :: r => (greedyWsThenCI explAfterSemi r).isSome
        | _ => false) s with
  | none => none
  | some i =>
    match greedyWsThenCI explAfterSemi (s.drop (i + 1)) with
    | some k => some (i + 1 + k)
    | none => none

/-- The explanation substrings that stop `clean_sql`'s line scan. -/
def explLineKws : List Str :=
  [str "explanation", str "note", str "this query", str "the sql",
   str "returns", str "finds"]

/-- The line loop of `clean_sql` (executed when no semicolon terminator was
found): stop at the first explanation-like line, otherwise keep lines. -/
def cleanSqlLines : List Str → List Str
  | [] => []
  | line :: rest =>
    let ls := pyStrip line
    if explLineKws.any (fun k => containsSub k (lowerS ls)) then []
    else if !ls.isEmpty && !hasWordKw kwLine19 line && ls.length > 50 &&
        !([ '(' , ')', '=', '<', '>' ].any (fun c => line.contains c)) then []
    else line :: cleanSqlLines rest

/-- The final step shared by `clean_sql` and `_clean_extracted_sql`: append a
`;` when the text is non-empty, lacks one, and contains a DML keyword. -/
def addSemiIfDml (s : Str) : Str :=
  if !s.isEmpty && !endsSemi s then
    if hasWordKw kwDml s then s ++ [ ';' ] else s
  else s

/-- `SQLValidator.clean_sql` (sql_validator.py, lines 19–92). -/
def clean_sql (sql : Str) : Str :=
  if sql.isEmpty then [] else
  let s1 := removeMarkerWs (str "```sql") sql
  let s2 := removeMarkerWs (str "```") s1
  match findStmtKwPos s2 with
  | none => []
  | some i =>
    let sqlText := s2.drop i
    let sqlCleaned :=
      match semiAEnd sqlText with
      | some e => pyStrip (sqlText.take e)
      | none =>
        match semiBEnd sqlText with
        | some e => pyStrip (sqlText.take e)
        | none =>
          match semiCEnd sqlText with
          | some e => pyStrip (sqlText.take e)
          | none => sqlText
    let sqlC2 :=
      if endsSemi (pyStrip sqlCleaned) then sqlCleaned
      else pyStrip (joinWith (str "\n") (cleanSqlLines (splitOnChar '\n' sqlCleaned)))
    let s4 := rstripP isPyWs sqlC2
    let s5 := lstripP (fun c => c == '`' || isPyWs c) s4
    let s6 := rstripP (fun c => c == '`' || isPyWs c) s5
    addSemiIfDml s6

/-- `a\s+b` matcher at a suffix. -/
def litWsLit (a b : Str) (suf : Str) : Bool :=
  match pLit a suf with
  | some r =>
    match pWsPlus r with
    | some r2 => (pLit b r2).isSome
    | none => false
  | none => false

/-- `DELETE\s+FROM\s+\w+$` matcher (the `$` anchors at the end of the searched
string or just before a single trailing newline). -/
def delFromEndPred (suf : Str) : Bool :=
  match pLit (str "DELETE") suf with
  | some r =>
    match pWsPlus r with
    | some r2 =>
      match pLit (str "FROM") r2 with
      | some r3 =>
        match pWsPlus r3 with
        | some r4 =>
          match pWordPlus r4 with
          | some r5 => r5.isEmpty || r5 == [ '\n' ]
          | none => false
        | none => false
      | none => false
    | none => false
  | none => false

/-- `UPDATE\s+\w+\s+SET` matcher. -/
def updateSetPred (suf : Str) : Bool :=
  match pLit (str "UPDATE") suf with
  | some r =>
    match pWsPlus r with
    | some r2 =>
      match pWordPlus r2 with
      | some r3 =>
        match pWsPlus r3 with
        | some r4 => (pLit (str "SET") r4).isSome
        | none => false
      | none => false
    | none => false
  | none => false

/-- `INSERT\s+INTO\s+\w+\s+VALUES` matcher. -/
def insertValuesPred (suf : Str) : Bool :=
  match pLit (str "INSERT") suf with
  | some r =>
    match pWsPlus r with
    | some r2 =>
      match pLit (str "INTO") r2 with
      | some r3 =>
        match pWsPlus r3 with
        | some r4 =>
          match pWordPlus r4 with
          | some r5 =>
            match pWsPlus r5 with
            | some r6 => (pLit (str "VALUES") r6).isSome
            | none => false
          | none => false
        | none => false
      | none => false
    | none => false
  | none => false

/-- `;\s*KW` matcher. -/
def semiThenLit (kw : Str) (suf : Str) : Bool :=
  match pLit (str ";") suf with
  | some r => (pLit kw (pWsStar r)).isSome
  | none => false

/-- The `dangerous_patterns` list of `is_safe_sql`, in source order; each entry
pairs the Python pattern text (interpolated into the reason string) with its
matcher.  The patterns are searched in `sql.upper()`, so the literals are
matched case-sensitively against uppercase text. -/
def dangerousPatterns : List (Str × (Str → Bool)) :=
  [ (str "DROP\\s+TABLE", litWsLit (str "DROP") (str "TABLE")),
    (str "DROP\\s+DATABASE", litWsLit (str "DROP") (str "DATABASE")),
    (str "TRUNCATE", fun suf => (str "TRUNCATE").isPrefixOf suf),
    (str "DELETE\\s+FROM\\s+\\w+$", delFromEndPred),
    (str "UPDATE\\s+\\w+\\s+SET", updateSetPred),
    (str "INSERT\\s+INTO\\s+\\w+\\s+VALUES", insertValuesPred),
    (str "ALTER\\s+TABLE", litWsLit (str "ALTER") (str "TABLE")),
    (str "CREATE\\s+TABLE", litWsLit (str "CREATE") (str "TABLE")),
    (str "EXECUTE", fun suf => (str "EXECUTE").isPrefixOf suf),
    (str "EXEC", fun suf => (str "EXEC").isPrefixOf suf),
    (str "SP_", fun suf => (str "SP_").isPrefixOf suf),
    (str "XP_", fun suf => (str "XP_").isPrefixOf suf),
    (str ";\\s*DROP", semiThenLit (str "DROP")),
    (str ";\\s*TRUNCATE", semiThenLit (str "TRUNCATE")),
    (str ";\\s*ALTER", semiThenLit (str "ALTER")),
    (str ";\\s*CREATE", semiThenLit (str "CREATE")) ]

/-- First dangerous pattern (in list order) that matches somewhere in the
uppercased SQL, returning its pattern text. -/
def findDangerous (u : Str) : Option Str :=
  dangerousPatterns.findSome?
    (fun pr => if (findSuffixIdx pr.2 u).isSome then some pr.1 else none)

/-- The `safe_keywords` set of `SQLValidator.__init__` (membership is tested
against single `\w+` tokens, so the multi-word entries can never match). -/
def safeKeywords : List Str :=
  [str "SELECT", str "FROM", str "WHERE", str "JOIN", str "INNER JOIN",
   str "LEFT JOIN", str "RIGHT JOIN", str "OUTER JOIN", str "GROUP BY",
   str "ORDER BY", str "LIMIT", str "COUNT", str "SUM", str "AVG", str "MAX",
   str "MIN", str "DISTINCT", str "HAVING", str "UNION", str "UNION ALL",
   str "EXISTS", str "IN", str "NOT IN", str "LIKE", str "BETWEEN", str "AND",
   str "OR", str "NOT", str "IS NULL", str "IS NOT NULL", str "AS", str "ON",
   str "USING", str "CREATE", str "DROP", str "ALTER", str "INSERT",
   str "UPDATE", str "DELETE", str "COMMIT", str "ROLLBACK", str "BEGIN"]

/-- Result of `is_safe_sql` (`safety_ratio` is only present in the safe case). -/
structure SafeCheck where
  safe : Bool
  reason : Str
  ratio_val : Option ℚ

/-- `SQLValidator.is_safe_sql` (sql_validator.py, lines 112–163).  The float
comparison `safety_ratio < 0.3` is modelled exactly on rationals (`mkRat
safe total < mkRat 3 10` is the exact value of `safe/total < 0.3`; for the
word counts arising here the double rounding of the Python quotient cannot
cross the threshold). -/
def is_safe_sql (sql : Str) : SafeCheck :=
  if sql.isEmpty then ⟨false, str "Empty SQL", none⟩
  else
    let u := upperS sql
    match findDangerous u with
    | some p => ⟨false, str "Dangerous SQL pattern detected: " ++ p, none⟩
    | none =>
      let ws := wordsOf u
      let safeCount := (ws.filter (fun w => safeKeywords.contains w)).length
      let total := ws.length
      let ratio : ℚ := if total > 0 then mkRat safeCount total else 0
      if ratio < mkRat 3 10 then
        ⟨false, str "Low safety ratio: " ++ pctFmt ratio ++ str " safe keywords", none⟩
      else
        ⟨true, str "SQL appears safe", some ratio⟩

/-- Validation stages of `validate_and_clean`, recorded in evaluation order. -/
inductive Stage where
  | safetyS
  | syntaxS
deriving DecidableEq

/-- Result dictionary of `validate_and_clean`. -/
structure VCResult where
  original_sql : Str
  cleaned_sql : Str
  is_valid : Bool
  is_safe : Bool
  syntax_error : Option Str
  safety_issues : Option Str

/-- `SQLValidator.validate_and_clean` (sql_validator.py, lines 165–197),
instrumented with the list of checks it performs, in order.  The database
round-trip of `validate_sql_syntax` (`EXPLAIN {sql}` inside try/except) is
the oracle `explainErr`: `none` means the `EXPLAIN` succeeded, `some e` the
engine error string. -/
def validate_and_clean (explainErr : Str → Option Str) (sql : Str) :
    VCResult × List Stage :=
  let cleaned := clean_sql sql
  if cleaned.isEmpty then
    (⟨sql, cleaned, false, false, some (str "No valid SQL found"), none⟩, [])
  else
    let sc := is_safe_sql cleaned
    if sc.safe = false then
      (⟨sql, cleaned, false, false, none, some sc.reason⟩, [Stage.safetyS])
    else
      match explainErr cleaned with
      | none => (⟨sql, cleaned, true, true, none, none⟩, [Stage.safetyS, Stage.syntaxS])
      | some e => (⟨sql, cleaned, false, true, some e, none⟩, [Stage.safetyS, Stage.syntaxS])

/-! ## `src/services/confidence_analyzer.py` — `ConfidenceAnalyzer` -/

/-- Result dictionary of `calculate_token_confidence`. -/
structure ConfReport where
  avg_confidence : ℚ
  min_confidence : ℚ
  max_confidence : ℚ
  confidence_scores : List ℚ
  confidence_label : Str

/-- `ConfidenceAnalyzer._interpret_confidence` (confidence_analyzer.py, lines
54–65).  The `score is None` branch is unreachable from
`calculate_token_confidence`, which always passes a float. -/
def interpretConfLabel (score : ℚ) : Str :=
  if score ≥ 0.85 then str "High"
  else if score ≥ 0.65 then str "Medium"
  else if score ≥ 0.45 then str "Low"
  else str "Very Low"

/-- Python `min(l)` / `max(l)` for a non-empty list (callers guard emptiness). -/
def listMin : List ℚ → ℚ
  | [] => 0
  | h :: t => t.foldl min h

/-- Python `max(l)`. -/
def listMax : List ℚ → ℚ
  | [] => 0
  | h :: t => t.foldl max h

/-- `ConfidenceAnalyzer.calculate_token_confidence` (confidence_analyzer.py,
lines 11–52).  The torch step `softmax(score).max().item()` per token is the
capability boundary: the input is modelled as the resulting per-token top
probabilities.  The except branch (label `"Error"`) only catches torch
failures and is unreachable in the pure model. -/
def calculate_token_confidence (scores : List ℚ) : ConfReport :=
  if scores.isEmpty then ⟨0, 0, 0, [], str "Unknown"⟩
  else
    let confidences := scores
    let avg : ℚ := confidences.sum / (confidences.length : ℚ)
    let mn := listMin confidences
    let mx := listMax confidences
    ⟨pyRound 3 avg, pyRound 3 mn, pyRound 3 mx,
     confidences.map (pyRound 3), interpretConfLabel avg⟩

/-! ## `src/services/prompt_builder.py` — `PromptBuilder` -/

/-- The env-configurable limits read in `PromptBuilder.__init__`
(`MAX_QUERY_LENGTH` default 2000, `MAX_SCHEMA_TABLES` default 10,
`MIN_QUERY_LENGTH` fixed at 3). -/
structure PBConfig where
  maxQueryLength : Nat
  maxSchemaTables : Nat
  minQueryLength : Nat

/-- The default configuration (no environment overrides). -/
def defaultPB : PBConfig := ⟨2000, 10, 3⟩

/-- `BLOCK_PATTERNS[0]`: `;\s*DROP\s+` (case insensitive). -/
def bpSemiDrop (suf : Str) : Bool :=
  match pLitCI (str ";") suf with
  | some r =>
    match pLitCI (str "DROP") (pWsStar r) with
    | some r2 => (r2.head?.map isPyWs).getD false
    | none => false
  | none => false

/-- `BLOCK_PATTERNS[1]`: `;\s*DELETE\s+FROM\s+\w+\s*;` (case insensitive). -/
def bpSemiDeleteFrom (suf : Str) : Bool :=
  match pLitCI (str ";") suf with
  | some r =>
    match pLitCI (str "DELETE") (pWsStar r) with
    | some r2 =>
      match pWsPlus r2 with
      | some r3 =>
        match pLitCI (str "FROM") r3 with
        | some r4 =>
          match pWsPlus r4 with
          | some r5 =>
            match pWordPlus r5 with
            | some r6 => (pLit (str ";") (pWsStar r6)).isSome
            | none => false
          | none => false
        | none => false
      | none => false
    | none => false
  | none => false

/-- `BLOCK_PATTERNS[2]`: `;\s*TRUNCATE\s+` (case insensitive). -/
def bpSemiTruncate (suf : Str) : Bool :=
  match pLitCI (str ";") suf with
  | some r =>
    match pLitCI (str "TRUNCATE") (pWsStar r) with
    | some r2 => (r2.head?.map isPyWs).getD false
    | none => false
  | none => false

/-- `BLOCK_PATTERNS[4]`/`[5]`: `exec\s*\(` and `execute\s*\(` (case
insensitive). -/
def bpCallParen (name : Str) (suf : Str) : Bool :=
  match pLitCI name suf with
  | some r => (pLit (str "(") (pWsStar r)).isSome
  | none => false

/-- Does any `BLOCK_PATTERNS` regex match in the query (`validate_user_input`
only uses the boolean outcome for its return value)? -/
def blockPatternHit (q : Str) : Bool :=
  (findSuffixIdx bpSemiDrop q).isSome ||
  (findSuffixIdx bpSemiDeleteFrom q).isSome ||
  (findSuffixIdx bpSemiTruncate q).isSome ||
  containsSubCI (str "xp_cmdshell") q ||
  (findSuffixIdx (bpCallParen (str "exec")) q).isSome ||
  (findSuffixIdx (bpCallParen (str "execute")) q).isSome

/-- `PromptBuilder.validate_user_input` (prompt_builder.py, lines 37–82).
The `WARN_PATTERNS` loop only logs and never changes the result, so it is
omitted.  The 30%-special-character check `count > len(query) * 0.3` is
modelled exactly on rationals (`count * 10 > len * 3`); the CPython float
product differs from the rational only at exact-boundary lengths divisible
by 10, which none of the theorems below touch. -/
def validate_user_input (cfg : PBConfig) (q : Str) : Bool × Option Str :=
  if q.isEmpty || (pyStrip q).isEmpty then
    (false, some (str "Query cannot be empty"))
  else
    let query := pyStrip q
    if query.length < cfg.minQueryLength then
      (false, some (str "Query too short (minimum " ++ natStr cfg.minQueryLength ++
        str " characters)"))
    else if query.length > cfg.maxQueryLength then
      (false, some (str "Query too long (maximum " ++ natStr cfg.maxQueryLength ++
        str " characters)"))
    else if blockPatternHit query then
      (false, some (str "Query contains potentially dangerous SQL patterns"))
    else
      let special := (query.filter (fun c => !c.isAlphanum && !isPyWs c)).length
      if special * 10 > query.length * 3 then
        (false, some (str "Query contains too many special characters"))
      else if containsSub (str ";;") query then
        (false, some (str "Query contains invalid syntax"))
      else if [str "%00", str "%27", str "%3B", str "char(", str "chr("].any
          (fun p => containsSub p query) then
        (false, some (str "Query contains encoded or suspicious characters"))
      else
        (true, none)

/-- `PromptBuilder.sanitize_user_input` (prompt_builder.py, lines 84–104):
strip, remove `--`-to-end-of-line comments, remove `/*...*/` comments,
collapse whitespace runs to single spaces, strip again. -/
def sanitize_user_input (q : Str) : Str :=
  if q.isEmpty then []
  else
    let q1 := pyStrip q
    let q2 := removeLineComments q1
    let q3 := removeBlockComments q2
    let q4 := collapseWs q3
    pyStrip q4

/-- A column record of the prompt-builder schema dictionary: `name` and `type`
are mandatory keys, `nullable` is read with `col.get('nullable', True)`, so a
missing key is modelled as `none`. -/
structure PBColumn where
  name : Str
  type : Str
  nullable : Option Bool

/-- A table record: `columns` is `none` when the `'columns'` key is missing;
`foreign_keys` holds the rendered text of each foreign-key object (the source
interpolates the raw object into an f-string). -/
structure PBTable where
  columns : Option (List PBColumn)
  foreign_keys : List Str

/-- The schema dictionary, in insertion order (Python dict keys are unique). -/
abbrev PBSchema := List (Str × PBTable)

/-- The per-table scan of `validate_schema_info`, returning the first
violation message.  The `isinstance` checks cannot fail in the typed model. -/
def vsiScan : PBSchema → Option Str
  | [] => none
  | (tn, ti) :: rest =>
    match ti.columns with
    | none => some (str "Table " ++ tn ++ str " missing columns information")
    | some [] => some (str "Table " ++ tn ++ str " has no columns")
    | some (_ :: _) => vsiScan rest

/-- `PromptBuilder.validate_schema_info` (prompt_builder.py, lines 106–137). -/
def validate_schema_info (s : PBSchema) : Bool × Option Str :=
  if s.isEmpty then (false, some (str "Schema information is empty"))
  else
    match vsiScan s with
    | some m => (false, some m)
    | none => (true, none)

/-- Relevance score of one table in `_find_relevant_tables`: +10 for the table
name occurring in the query, +5 for the singular/plural variants
(`name[:-1] in query or name + 's' in query`), +3 per column name occurring
in the query.  All checks are substring tests on lowercased text. -/
def tableScore (ql : Str) (tn : Str) (ti : PBTable) : Nat :=
  (if containsSub (lowerS tn) ql then 10 else 0) +
  (if containsSub (lowerS tn).dropLast ql || containsSub (lowerS tn ++ [ 's' ]) ql
   then 5 else 0) +
  3 * ((ti.columns.getD []).filter (fun c => containsSub (lowerS c.name) ql)).length

/-- Stable descending insertion (models Python's stable
`sorted(keys, key=score, reverse=True)`): an element is placed after all
existing elements of greater-or-equal score. -/
def insDesc (p : Str × Nat) : List (Str × Nat) → List (Str × Nat)
  | [] => [p]
  | q :: t => if q.2 ≥ p.2 then q :: insDesc p t else p :: q :: t

/-- `PromptBuilder._find_relevant_tables` (prompt_builder.py, lines 184–217):
tables with positive score, sorted by score descending, ties in original
order. -/
def find_relevant_tables (s : PBSchema) (q : Str) : List Str :=
  let ql := lowerS q
  let scored := (s.map (fun p => (p.1, tableScore ql p.1 p.2))).filter (fun p => p.2 > 0)
  (scored.foldl (fun acc p => insDesc p acc) []).map Prod.fst

/-- The list of table names `build_schema_context` renders: the relevant
tables (computed on the sanitized query), or the first `maxSchemaTables`
schema keys when none scored, truncated to `maxSchemaTables` and filtered by
the `if table_name in schema_info` guard of the rendering loop. -/
def renderedTableNames (cfg : PBConfig) (s : PBSchema) (q : Str) : List Str :=
  let rel := find_relevant_tables s (sanitize_user_input q)
  let rel2 := if rel.isEmpty then (s.map Prod.fst).take cfg.maxSchemaTables else rel
  (rel2.take cfg.maxSchemaTables).filter
    (fun tn => (s.find? (fun p => p.1 == tn)).isSome)

/-- One rendered table block of `build_schema_context`: header, one line per
column with `NULL`/`NOT NULL`, optional foreign-key lines, blank line. -/
def tableBlock (s : PBSchema) (tn : Str) : Str :=
  match s.find? (fun p => p.1 == tn) with
  | none => []
  | some (_, ti) =>
    str "Table: " ++ tn ++ str "\n" ++
    ((ti.columns.getD []).map (fun c =>
      str "  - " ++ c.name ++ str " (" ++ c.type ++ str ") - " ++
      (if (c.nullable.getD true) = false then str "NOT NULL" else str "NULL") ++
      str "\n")).flatten ++
    (if !ti.foreign_keys.isEmpty then
      str "  Foreign Keys:\n" ++
        (ti.foreign_keys.map (fun fk => str "    - " ++ fk ++ str "\n")).flatten
     else []) ++
    str "\n"

/-- `PromptBuilder.build_schema_context` (prompt_builder.py, lines 139–182).
An invalid schema yields the placeholder string (returned, not raised); an
invalid user query raises `InputValidationError`, modelled as `Except.error`
carrying the message. -/
def build_schema_context (cfg : PBConfig) (s : PBSchema) (q : Str) :
    Except Str Str :=
  match validate_schema_info s with
  | (false, _) => Except.ok (str "No valid schema information available.")
  | _ =>
    match validate_user_input cfg q with
    | (false, msg) => Except.error (msg.getD [])
    | _ =>
      Except.ok (str "Database Schema:\n" ++
        ((renderedTableNames cfg s q).map (tableBlock s)).flatten)

/-- Intent dictionary of `get_query_intent`. -/
structure QueryIntent where
  query_type : Str
  requires_aggregation : Bool
  requires_grouping : Bool
  requires_join : Bool
  requires_ordering : Bool
  time_based : Bool

/-- `PromptBuilder.get_query_intent` (prompt_builder.py, lines 492–538). -/
def get_query_intent (q : Str) : QueryIntent :=
  let ql := lowerS q
  let agg := [str "count", str "sum", str "average", str "avg", str "total",
    str "maximum", str "max", str "minimum", str "min"].any
      (fun k => containsSub k ql)
  let grp := [str "per", str "each", str "by", str "for every"].any
      (fun k => containsSub k ql)
  let ord := [str "top", str "best", str "worst", str "highest", str "lowest",
    str "first", str "last"].any (fun k => containsSub k ql)
  let tim := [str "date", str "time", str "year", str "month", str "day",
    str "week", str "recent", str "latest", str "oldest"].any
      (fun k => containsSub k ql)
  let joinCount := ([str "and", str "with", str "from", str "in", str "of"].filter
      (fun k => containsSub k ql)).length
  { query_type := if agg then str "aggregate" else str "select"
    requires_aggregation := agg
    requires_grouping := grp
    requires_join := joinCount ≥ 2
    requires_ordering := ord
    time_based := tim }

/-- The dialect line of `build_enhanced_prompt` (`syntax_instruction` dict with
`dict.get` default). -/
def dialectInstr (dbType : Str) : Str :=
  if dbType == str "SQLite" then str "Use proper SQLite syntax"
  else if dbType == str "PostgreSQL" then str "Use proper PostgreSQL syntax"
  else if dbType == str "MySQL" then str "Use proper MySQL syntax"
  else str "Use proper SQL syntax"

/-- `PromptBuilder.build_enhanced_prompt` (prompt_builder.py, lines 219–291).
A failed validation raises `InputValidationError(error_msg)`, modelled as
`Except.error error_msg`; the function makes no model call. -/
def build_enhanced_prompt (cfg : PBConfig) (question schema_context dbType : Str) :
    Except Str Str :=
  match validate_user_input cfg question with
  | (false, msg) => Except.error (msg.getD [])
  | _ =>
    let sanitized := sanitize_user_input question
    let intent := get_query_intent sanitized
    let intentInstr :=
      (if intent.requires_aggregation then
        [str "- Use aggregate functions (COUNT, SUM, AVG, MAX, MIN) as needed"] else []) ++
      (if intent.requires_grouping then [str "- Use GROUP BY to group results"] else []) ++
      (if intent.requires_join then [str "- Use JOINs to connect related tables"] else []) ++
      (if intent.requires_ordering then
        [str "- Use ORDER BY with LIMIT to get top/best results"] else []) ++
      (if intent.time_based then
        [str "- Use date/time functions for filtering and sorting"] else [])
    let baseInstr :=
      [str "- Use only tables and columns mentioned in the schema",
       str "- " ++ dialectInstr dbType,
       str "- Use JOINs when needed to connect related tables",
       str "- Use ORDER BY and LIMIT 1 for \"top\", \"highest\", \"best\", or \"first\" queries",
       str "- For questions like \"number of orders per customer\", use COUNT() with GROUP BY and JOIN",
       str "- Use WHERE for filtering conditions",
       str "- Use GROUP BY and aggregates (COUNT, SUM, AVG, MAX, MIN) only when explicitly requested",
       str "- Return ONLY the SQL query, nothing else",
       str "- Do NOT include semicolons to chain multiple statements"]
    let instrText := joinWith (str "\n") (baseInstr ++ intentInstr)
    Except.ok (str "Convert the following natural language question into a " ++
      dbType ++ str " SQL query.\n\n" ++ schema_context ++
      str "\n\nInstructions:\n" ++ instrText ++
      str "\n\nQuestion: " ++ sanitized ++ str "\n\nSQL:")

/-! ## `PromptBuilder.extract_sql_from_response` and `_clean_extracted_sql` -/

/-- The 26-keyword alternation in `extract_sql_from_response`'s line filter. -/
def kwLine26 : List Str :=
  kwLine19 ++ [str "AS", str "ON", str "USING", str "INNER", str "LEFT",
    str "RIGHT", str "OUTER"]

/-- The 30-keyword alternation (`sql_keywords_pattern`) in
`_clean_extracted_sql`'s line filter. -/
def kwLine30 : List Str :=
  kwLine26 ++ [str "HAVING", str "UNION", str "EXCEPT", str "INTERSECT"]

/-- Alternating literal/`\s+` sequence matcher at a suffix (case insensitive),
returning the remainder after the last literal; the greedy `\s+` runs are
forced because each following literal starts with a letter. -/
def seqCI : List Str → Str → Option Str
  | [], s => some s
  | [p], s => pLitCI p s
  | p :: q :: rest, s =>
    match pLitCI p s with
    | some r =>
      match pWsPlus r with
      | some r2 => seqCI (q :: rest) r2
      | none => none
    | none => none

/-- `re.sub(r"^.*?<p1\s+p2\s+...>.*?SQL:\s*", "", s, flags=re.IGNORECASE |
re.DOTALL)`: a single anchored prefix removal through the earliest fragment
occurrence that is followed (lazily) by a `SQL:` label, plus the label's
trailing whitespace. -/
def instrRemove (parts : List Str) (s : Str) : Str :=
  match findSuffixIdx
      (fun suf =>
        match seqCI parts suf with
        | some r => (findSubCI (str "SQL:") r).isSome
        | none => false) s with
  | none => s
  | some i =>
    let suf := s.drop i
    match seqCI parts suf with
    | some r =>
      match findSubCI (str "SQL:") r with
      | some j =>
        let e := i + (suf.length - r.length) + j + 4
        s.drop (e + wsRunLen (s.drop e))
      | none => s
    | none => s

/-- `re.sub(r"^.*?SQL:\s*", "", s, flags=re.IGNORECASE | re.DOTALL)`: remove
through the first `SQL:` and its trailing whitespace. -/
def instrRemoveSqlLabel (s : Str) : Str :=
  match findSubCI (str "SQL:") s with
  | some i =>
    let e := i + 4
    s.drop (e + wsRunLen (s.drop e))
  | none => s

/-- `re.sub(r"^.*?SQL\s+Query:\s*", "", s, ...)`: remove through the first
`SQL Query:` fragment and its trailing whitespace. -/
def instrRemoveSeq (parts : List Str) (s : Str) : Str :=
  match findSuffixIdx (fun suf => (seqCI parts suf).isSome) s with
  | none => s
  | some i =>
    let suf := s.drop i
    match seqCI parts suf with
    | some r =>
      let e := i + (suf.length - r.length)
      s.drop (e + wsRunLen (s.drop e))
    | none => s

/-- Scanner for `re.sub(r"^.*?-\s*[^-]*?SQL:\s*", "", s, ...)`: the match ends
at the first `SQL:` that has at least one `-` somewhere before it (the last
such `-` provides the dash-free gap the pattern requires). -/
def dashSqlFind (seen : Bool) (i : Nat) : Str → Option Nat
  | [] => none
  | c :: t =>
    if seen && ciStartsWith (str "SQL:") (c :: t) then some i
    else dashSqlFind (seen || c == '-') (i + 1) t

/-- The dash-label prefix removal of `_clean_extracted_sql`. -/
def dashSqlRemove (s : Str) : Str :=
  match dashSqlFind false 0 s with
  | some j =>
    let e := j + 4
    s.drop (e + wsRunLen (s.drop e))
  | none => s

/-- Consume `statement`, then the greedy optional `s?`, then `\s*`, starting
at index `j` (where `statement` matches), and drop the prefix. -/
def stmtTailDrop (s : Str) (j : Nat) : Str :=
  let e1 := j + 9
  let e2 := if ((s.drop e1).head?.map (fun c => c.toLower == 's')).getD false
            then e1 + 1 else e1
  s.drop (e2 + wsRunLen (s.drop e2))

/-- `re.sub(r"^with\s+.*?statements?\s*", "", s, flags=re.IGNORECASE)`: by the
time this runs the text is a single line (it was joined with spaces), so the
newline-excluding `.` is unrestricted. -/
def withStmtRemove (s : Str) : Str :=
  if ciStartsWith (str "with") s && ((s.drop 4).head?.map isPyWs).getD false then
    match findSubCI (str "statement") (s.drop 5) with
    | some j0 => stmtTailDrop s (5 + j0)
    | none => s
  else s

/-- `re.sub(r"^.*?do\s+not\s+include.*?statements?\s*", "", s,
flags=re.IGNORECASE)` (single-line input, see `withStmtRemove`). -/
def doNotIncludeRemove (s : Str) : Str :=
  match findSuffixIdx
      (fun suf =>
        match seqCI [str "do", str "not", str "include"] suf with
        | some r => (findSubCI (str "statement") r).isSome
        | none => false) s with
  | none => s
  | some i =>
    let suf := s.drop i
    match seqCI [str "do", str "not", str "include"] suf with
    | some r =>
      match findSubCI (str "statement") r with
      | some j0 => stmtTailDrop s (i + (suf.length - r.length) + j0)
      | none => s
    | none => s

/-- The `instruction_keywords` list of `_clean_extracted_sql`'s line filter. -/
def icKws : List Str :=
  [str "use ", str "return only", str "ensure", str "instruction",
   str "database schema", str "task:", str "question:", str "###",
   str "with group by", str "do not include", str "semicolons",
   str "chain multiple", str "statements"]

/-- The line filter of `_clean_extracted_sql`: skip leading empties, skip
instruction-like lines unless they start with a statement keyword, skip long
lines with neither SQL keywords nor SQL punctuation.  `kept` tracks whether
`cleaned_lines` is non-empty. -/
def cleanExLines (kept : Bool) : List Str → List Str
  | [] => []
  | line :: rest =>
    let ls := pyStrip line
    if ls.isEmpty && !kept then cleanExLines kept rest
    else if icKws.any (fun k => containsSub k (lowerS ls)) &&
        !(kwStmt.any (fun p => p.isPrefixOf (upperS ls))) then
      cleanExLines kept rest
    else if ls.length > 80 && !hasWordKw kwLine30 line &&
        !([ '(' , ')', '=', '<', '>', ',', '.', Char.ofNat 39, '"' ].any
            (fun c => line.contains c)) then
      cleanExLines kept rest
    else line :: cleanExLines true rest

/-- `PromptBuilder._clean_extracted_sql` (prompt_builder.py, lines 416–490). -/
def clean_extracted_sql (sql : Str) : Str :=
  if sql.isEmpty then [] else
  let s1 := instrRemove [str "with", str "GROUP", str "BY"] sql
  let s2 := instrRemove [str "Do", str "NOT", str "include"] s1
  let s3 := instrRemove [str "Return", str "ONLY"] s2
  let s4 := instrRemoveSqlLabel s3
  let s5 := instrRemoveSeq [str "SQL", str "Query:"] s4
  let s6 := pyStrip (joinWith (str "\n") (cleanExLines false (splitOnChar '\n' s5)))
  let s7 := rstripP (fun c => c == '`' || isPyWs c)
    (lstripP (fun c => c == '`' || isPyWs c) s6)
  let s8 := dashSqlRemove s7
  let s9 := joinWith [ ' ' ] (((splitOnChar '\n' s8).map pyStrip).filter (fun l => !l.isEmpty))
  let s10 := withStmtRemove s9
  let s11 := doNotIncludeRemove s10
  addSemiIfDml s11

/-- The tagged code-block extraction `re.search(r"```sql\s*(.*?)\s*```",
response, re.IGNORECASE | re.DOTALL)`: the leftmost ```` ```sql ```` opener
that has a closing ```` ``` ```` after it; the group is the interior with the
surrounding whitespace absorbed by the bounding `\s*` (and the source applies
`.strip()` to it as well). -/
def codeBlockGroup (s : Str) : Option Str :=
  match findSuffixIdx
      (fun suf => ciStartsWith (str "```sql") suf &&
        (findSub (str "```") (suf.drop 6)).isSome) s with
  | none => none
  | some i =>
    let rest := s.drop (i + 6)
    match findSub (str "```") rest with
    | some j => some (pyStrip (rest.take j))
    | none => none

/-- `sql_label_patterns[0]`: `SQL:\s*(SELECT|...|ALTER)`; returns the keyword
start position (`match.end() - len(match.group(1))`). -/
def labelP1 (s : Str) : Option Nat :=
  match findSuffixIdx
      (fun suf => ciStartsWith (str "SQL:") suf &&
        kwStmt.any (fun k => ciStartsWith k ((suf.drop 4).dropWhile isPyWs))) s with
  | some i => some (i + 4 + wsRunLen (s.drop (i + 4)))
  | none => none

/-- `sql_label_patterns[1]`: `SQL\s+Query:\s*(SELECT|...|ALTER)`. -/
def labelP2 (s : Str) : Option Nat :=
  match findSuffixIdx
      (fun suf => ciStartsWith (str "SQL") suf &&
        (match pWsPlus (suf.drop 3) with
         | some r => ciStartsWith (str "Query:") r &&
             kwStmt.any (fun k => ciStartsWith k ((r.drop 6).dropWhile isPyWs))
         | none => false)) s with
  | some i =>
    let k1 := wsRunLen (s.drop (i + 3))
    let k2 := wsRunLen (s.drop (i + 3 + k1 + 6))
    some (i + 3 + k1 + 6 + k2)
  | none => none

/-- `sql_label_patterns[2]`: ```` ```sql\s*(SELECT|...|ALTER) ````. -/
def labelP3 (s : Str) : Option Nat :=
  match findSuffixIdx
      (fun suf => ciStartsWith (str "```sql") suf &&
        kwStmt.any (fun k => ciStartsWith k ((suf.drop 6).dropWhile isPyWs))) s with
  | some i => some (i + 6 + wsRunLen (s.drop (i + 6)))
  | none => none

/-- The `sql_label_patterns` loop: first pattern (in list order) that matches
anywhere wins. -/
def labelKwStart (s : Str) : Option Nat :=
  labelP1 s <|> labelP2 s <|> labelP3 s

/-- `end_keywords[5]`: `Use\s+(WHERE|GROUP BY|JOIN)` at a suffix. -/
def useKwPred (suf : Str) : Bool :=
  ciStartsWith (str "Use") suf && ((suf.drop 3).head?.map isPyWs).getD false &&
    [str "WHERE", str "GROUP BY", str "JOIN"].any
      (fun w => ciStartsWith w ((suf.drop 3).dropWhile isPyWs))

/-- The `end_keywords` loop of `extract_sql_from_response`: the first pattern
(in list order) matching anywhere returns its `match.start()`. -/
def endKwStart (s : Str) : Option Nat :=
  (findSuffixIdx
    (fun suf => (str "###").isPrefixOf suf && ((suf.drop 3).head?.map isPyWs).getD false) s) <|>
  findSubCI (str "Explanation") s <|>
  findSubCI (str "Note:") s <|>
  findSubCI (str "This query") s <|>
  findSubCI (str "The SQL") s <|>
  (findSuffixIdx useKwPred s) <|>
  findSubCI (str "Return only") s <|>
  findSubCI (str "Ensure the query") s

/-- The instruction substrings that stop `extract_sql_from_response`'s line
scan. -/
def exLineKws : List Str :=
  [str "use ", str "return only", str "ensure", str "instruction",
   str "database schema", str "task:", str "question:"]

/-- The fallback line scan of `extract_sql_from_response`. -/
def extractLines : List Str → List Str
  | [] => []
  | line :: rest =>
    let ls := pyStrip line
    if exLineKws.any (fun k => containsSub k (lowerS ls)) then []
    else if ls.length > 100 && !hasWordKw kwLine26 line then []
    else line :: extractLines rest

/-- The non-code-block path of `extract_sql_from_response` up to (but not
including) the multiple-statement check: fence stripping, label-pattern or
direct keyword location, end detection, `_clean_extracted_sql`.  `none` models
the `return ""` when no statement keyword is found. -/
def extractMainCand (response : Str) : Option Str :=
  let s0 := removeMarkerWs (str "```sql") response
  let s := removeMarkerWs (str "```") s0
  let sqlTextO : Option Str :=
    match labelKwStart s with
    | some p => some (s.drop p)
    | none =>
      match findStmtKwPos s with
      | some p => some (s.drop p)
      | none => none
  match sqlTextO with
  | none => none
  | some sqlText =>
    let sqlCleaned :=
      match semiAEnd sqlText with
      | some e => pyStrip (sqlText.take e)
      | none =>
        match endKwStart sqlText with
        | some st => pyStrip (sqlText.take st)
        | none => pyStrip (joinWith (str "\n") (extractLines (splitOnChar '\n' sqlText)))
    some (clean_extracted_sql sqlCleaned)

/-- The multiple-statement check at the end of `extract_sql_from_response`:
keep the first `;`-terminated piece and flag the (non-fatal) warning. -/
def finishExtract (response : Str) : Str × Bool :=
  match extractMainCand response with
  | none => ([], false)
  | some c =>
    if countChar ';' c > 1 then (takeUntilSub (str ";") c ++ [ ';' ], true)
    else (c, false)

/-- `PromptBuilder.extract_sql_from_response` (prompt_builder.py, lines
293–414).  The boolean is the "Multiple SQL statements detected" warning; a
non-empty result extracted from a tagged code block returns early and never
reaches that check. -/
def extract_sql_from_response (response : Str) : Str × Bool :=
  if response.isEmpty then ([], false)
  else
    match codeBlockGroup response with
    | some g =>
      let c := clean_extracted_sql g
      if !c.isEmpty then (c, false) else finishExtract response
    | none => finishExtract response

/-- The value of `sql` reaching the multiple-statement check of
`extract_sql_from_response` (`none` when an earlier `return` fires). -/
def cleanCandidate (response : Str) : Option Str :=
  if response.isEmpty then none
  else
    match codeBlockGroup response with
    | some g =>
      if !(clean_extracted_sql g).isEmpty then none else extractMainCand response
    | none => extractMainCand response

/-! ## `src/services/text2sql_service.py` — `EnhancedText2SQLService`

The file contains unresolved git merge-conflict markers; for each conflicted
fragment the variant consistent with the shared code (the one that defines the
`token_conf` used by the common `return`) is embedded. -/

/-- A column record produced by `get_database_schema` (PRAGMA table_info). -/
structure T2Col where
  name : Str
  type : Str
  nullable : Bool
  primary_key : Bool

/-- The schema dictionary of `get_database_schema`, in table order. -/
abbrev T2Schema := List (Str × List T2Col)

/-- Python `schema_info[table]` (keys are unique dict keys). -/
def lookupTableCols (schema : T2Schema) (tn : Str) : List T2Col :=
  ((schema.find? (fun p => p.1 == tn)).map Prod.snd).getD []

/-- `EnhancedText2SQLService.create_schema_context` (text2sql_service.py,
lines 152–188): tables whose name or any column name occurs in the lowercased
question; all tables when none matches; at most 3 rendered. -/
def create_schema_context (schema : T2Schema) (user_query : Str) : Str :=
  let ql := lowerS user_query
  let relevant := (schema.filter (fun t =>
      containsSub (lowerS t.1) ql ||
      t.2.any (fun c => containsSub (lowerS c.name) ql))).map Prod.fst
  let relevant2 := if relevant.isEmpty then schema.map Prod.fst else relevant
  str "Database Schema:\n" ++
    ((relevant2.take 3).map (fun tn =>
      str "Table: " ++ tn ++ str "\n" ++
      ((lookupTableCols schema tn).map (fun c =>
        str "  - " ++ c.name ++ str " (" ++ c.type ++ str ")\n")).flatten ++
      str "\n")).flatten

/-- `EnhancedText2SQLService.create_enhanced_prompt` (text2sql_service.py,
lines 190–208): the fixed f-string template. -/
def create_enhanced_prompt (question schema_context : Str) : Str :=
  str "### Task: Convert the following natural language question into a SQLite SQL query.\n\n### Database Schema:\n" ++
  schema_context ++
  str "\n\n### Instructions:\n- Use only tables and columns mentioned in the schema\n- Use proper SQLite syntax\n- Use JOINs when needed\n- Use WHERE for filtering\n- Use GROUP BY and aggregates when needed\n- Return only the SQL query without any explanations\n\n### Question: " ++
  question ++
  str "\n\n### SQL Query:\n```sql\n"

/-- The five-keyword alternation of `clean_sql_output`. -/
def kwFive : List Str :=
  [str "SELECT", str "INSERT", str "UPDATE", str "DELETE", str "WITH"]

/-- `EnhancedText2SQLService.clean_sql_output` (text2sql_service.py, lines
230–240): fence stripping, `re.search(r"(SELECT|INSERT|UPDATE|DELETE|WITH)
.*?(?=```|$)", sql, re.IGNORECASE | re.DOTALL)` (the lazy tail stops at the
first ```` ``` ```` or at `$`, which matches at the end or before one trailing
newline), trailing-whitespace strip, then an unconditional `;` append when
missing. -/
def clean_sql_output (sql : Str) : Str :=
  let s1 := removeMarkerWs (str "```sql") sql
  let s2 := removeMarkerWs (str "```") s1
  let s3 :=
    match findSuffixIdx (fun suf => kwFive.any (fun k => ciStartsWith k suf)) s2 with
    | some i =>
      let tail := s2.drop i
      match kwFive.find? (fun k => ciStartsWith k tail) with
      | some kw =>
        let rest := tail.drop kw.length
        let stopRel :=
          match findSub (str "```") rest with
          | some j => j
          | none => if rest.getLast? == some '\n' then rest.length - 1 else rest.length
        pyStrip (tail.take (kw.length + stopRel))
      | none => s2
    | none => s2
  let s4 := rstripP isPyWs s3
  if endsSemi s4 then s4 else s4 ++ [ ';' ]

/-- `EnhancedText2SQLService.interpret_confidence` (text2sql_service.py,
lines 93–101). -/
def interpret_confidence (score : Option ℚ) : Str :=
  match score with
  | none => str "Unknown"
  | some s =>
    if s ≥ 0.85 then str "High"
    else if s ≥ 0.65 then str "Medium"
    else str "Low"

/-- The effectful boundary of `generate_sql`: the database schema read, the
tokenizer/model call (the decoded sequence text), the per-token top softmax
probabilities of `outputs.scores`, and the `EXPLAIN` round-trip of
`validate_sql_syntax` (which catches internally and returns a boolean). -/
structure GenEnv where
  schemaResult : Except Str T2Schema
  generationResult : Except Str Str
  scoresResult : Except Str (List ℚ)
  explainOk : Str → Bool

/-- The dictionary returned by `generate_sql`; a `none` field models an absent
key (the success path never sets `error` or `is_safe`; the fallback path sets
only `sql`, `valid`, `error` and `raw_output`). -/
structure SqlGenResult where
  sql : Option Str
  valid : Option Bool
  raw_output : Option Str
  schema_used : Option Str
  confidence : Option (Option ℚ)
  confidence_label : Option Str
  error : Option Str
  is_safe : Option Bool

/-- The static fallback dictionary of `generate_sql`'s `except` branch:
`{"sql": "SELECT 1;", "valid": False, "error": str(e), "raw_output": ""}`. -/
def fallbackResult (e : Str) : SqlGenResult :=
  { sql := some (str "SELECT 1;"), valid := some false,
    raw_output := some [], schema_used := none, confidence := none,
    confidence_label := none, error := some e, is_safe := none }

/-- `EnhancedText2SQLService.generate_sql` (text2sql_service.py, lines
251–327).  The outer try/except catches any failure of the schema read or the
generation call and returns the static fallback; the inner try around the
token-confidence computation only downgrades `token_conf` to `None`.  The
success dictionary carries `confidence` rounded via `round(token_conf * 100,
2)` and the label from `interpret_confidence`. -/
def generate_sql (env : GenEnv) (question : Str) : SqlGenResult :=
  match env.schemaResult with
  | Except.error e => fallbackResult e
  | Except.ok schema =>
    let ctx := create_schema_context schema question
    let prompt := create_enhanced_prompt question ctx
    match env.generationResult with
    | Except.error e => fallbackResult e
    | Except.ok decoded =>
      let raw := pyStrip (pyReplace prompt [] decoded)
      let cleaned := clean_sql_output raw
      let tokenConf : Option ℚ :=
        match env.scoresResult with
        | Except.error _ => none
        | Except.ok l => some (if l.isEmpty then 0 else l.sum / (l.length : ℚ))
      let isValid := env.explainOk cleaned
      { sql := some cleaned, valid := some isValid, raw_output := some raw,
        schema_used := some ctx,
        confidence := some (tokenConf.map (fun c => pyRound 2 (c * 100))),
        confidence_label := some (interpret_confidence tokenConf),
        error := none, is_safe := none }

/-- The failure description that trips `generate_sql`'s outer `except` branch:
a schema-read failure, or (schema ok) a generation failure. -/
def pipelineFailure (env : GenEnv) : Option Str :=
  match env.schemaResult with
  | Except.error e => some e
  | Except.ok _ =>
    match env.generationResult with
    | Except.error e => some e
    | Except.ok _ => none

/-!
# Theorems

Helper lemmas first, then one theorem per claim (with witnesses and
counterexamples where required).
-/

/-- Appending a semicolon makes `endsSemi` true. -/
theorem endsSemi_concat : ∀ l : Str, endsSemi (l ++ [ ';' ]) = true
  | [] => rfl
  | [_] => rfl
  | _ :: b :: t => endsSemi_concat (b :: t)

/-- The semicolon-append step preserves the terminator invariant: its output
is empty, ends in `;`, or contains no DML keyword. -/
theorem addSemiIfDml_spec (s : Str) :
    addSemiIfDml s = [] ∨ endsSemi (addSemiIfDml s) = true ∨
      hasWordKw kwDml (addSemiIfDml s) = false := by
  by_cases h1 : s.isEmpty
  · have hr : addSemiIfDml s = s := by unfold addSemiIfDml; simp [h1]
    rw [hr]
    exact Or.inl (List.isEmpty_iff.mp h1)
  · by_cases h2 : endsSemi s
    · have hr : addSemiIfDml s = s := by unfold addSemiIfDml; simp [h2]
      rw [hr]
      exact Or.inr (Or.inl h2)
    · simp only [Bool.not_eq_true] at h1 h2
      by_cases h3 : hasWordKw kwDml s
      · have hr : addSemiIfDml s = s ++ [ ';' ] := by
          unfold addSemiIfDml; simp [h1, h2, h3]
        rw [hr]
        exact Or.inr (Or.inl (endsSemi_concat s))
      · simp only [Bool.not_eq_true] at h3
        have hr : addSemiIfDml s = s := by unfold addSemiIfDml; simp [h1, h2, h3]
        rw [hr]
        exact Or.inr (Or.inr h3)

/-- `_clean_extracted_sql` output satisfies the terminator invariant. -/
theorem clean_extracted_sql_spec (s : Str) :
    clean_extracted_sql s = [] ∨ endsSemi (clean_extracted_sql s) = true ∨
      hasWordKw kwDml (clean_extracted_sql s) = false := by
  unfold clean_extracted_sql
  split
  · exact Or.inl rfl
  · exact addSemiIfDml_spec _

/-- `clean_sql` output satisfies the terminator invariant. -/
theorem clean_sql_spec (s : Str) :
    clean_sql s = [] ∨ endsSemi (clean_sql s) = true ∨
      hasWordKw kwDml (clean_sql s) = false := by
  by_cases h0 : s.isEmpty
  · have hr : clean_sql s = [] := by unfold clean_sql; rw [if_pos h0]
    rw [hr]
    exact Or.inl rfl
  · rcases hk : findStmtKwPos (removeMarkerWs (str "```")
        (removeMarkerWs (str "```sql") s)) with _ | i
    · have hr : clean_sql s = [] := by
        unfold clean_sql
        rw [if_neg h0]
        simp only [hk]
      rw [hr]
      exact Or.inl rfl
    · unfold clean_sql
      rw [if_neg h0]
      simp only [hk]
      exact addSemiIfDml_spec _

/-- The candidate reaching the multiplicity check is `_clean_extracted_sql`
output, so it satisfies the terminator invariant. -/
theorem extractMainCand_spec (r c : Str) (h : extractMainCand r = some c) :
    c = [] ∨ endsSemi c = true ∨ hasWordKw kwDml c = false := by
  unfold extractMainCand at h
  simp only [] at h
  split at h
  · exact absurd h (by simp)
  · rw [Option.some_inj] at h
    subst h
    exact clean_extracted_sql_spec _

/-- `finishExtract` output satisfies the terminator invariant. -/
theorem finishExtract_spec (r : Str) :
    (finishExtract r).1 = [] ∨ endsSemi (finishExtract r).1 = true ∨
      hasWordKw kwDml (finishExtract r).1 = false := by
  unfold finishExtract
  split
  · exact Or.inl rfl
  · split
    · exact Or.inr (Or.inl (endsSemi_concat _))
    · rename_i c hc _
      exact extractMainCand_spec r c hc

/-- C4 (corrected).  For `clean_sql`, `_clean_extracted_sql` and
`extract_sql_from_response`, the result is empty, ends with `;`, or contains
none of SELECT/INSERT/UPDATE/DELETE as a whole word: the trailing `;` is only
appended when one of those four keywords is present, so statements recognised
via WITH/CREATE/DROP/ALTER alone can be returned without a terminator (see the
counterexample), and inputs without any statement keyword yield the empty
string. -/
theorem c4_semicolon_invariant (s : Str) :
    (clean_sql s = [] ∨ endsSemi (clean_sql s) = true ∨
      hasWordKw kwDml (clean_sql s) = false) ∧
    (clean_extracted_sql s = [] ∨ endsSemi (clean_extracted_sql s) = true ∨
      hasWordKw kwDml (clean_extracted_sql s) = false) ∧
    ((extract_sql_from_response s).1 = [] ∨
      endsSemi (extract_sql_from_response s).1 = true ∨
      hasWordKw kwDml (extract_sql_from_response s).1 = false) := by
  refine ⟨clean_sql_spec s, clean_extracted_sql_spec s, ?_⟩
  unfold extract_sql_from_response
  split
  · exact Or.inl rfl
  · split
    · simp only []
      split
      · rename_i g hg hne
        exact clean_extracted_sql_spec g
      · exact finishExtract_spec s
    · exact finishExtract_spec s

/-- C4 counterexample.  `clean_sql "DROP TABLE t"` keeps the recognised
DROP statement but returns it non-empty and without a trailing `;`, refuting
"the result is either the empty string or ends with ';'" and "when a
recognized statement keyword was found but the terminator is missing, a
trailing ';' is appended". -/
theorem c4_counterexample :
    clean_sql (str "DROP TABLE t") = str "DROP TABLE t" ∧
    clean_sql (str "DROP TABLE t") ≠ ([] : Str) ∧
    endsSemi (clean_sql (str "DROP TABLE t")) = false := by
  refine ⟨by decide, by decide, by decide⟩

/-- C1 counterexample.  `"BEGIN;"` does not start with `SELECT` or `WITH`
(case-insensitively, after stripping), yet `is_safe_sql` classifies it as
safe: no dangerous pattern matches and its single word `BEGIN` is in the
safe-keyword set, so the ratio check passes.  This refutes "every SQL
statement that does not start with SELECT or WITH is classified unsafe". -/
theorem c1_counterexample :
    (is_safe_sql (str "BEGIN;")).safe = true ∧
    ciStartsWith (str "SELECT") (pyStrip (str "BEGIN;")) = false ∧
    ciStartsWith (str "WITH") (pyStrip (str "BEGIN;")) = false := by
  refine ⟨by decide, by decide, by decide⟩

/-- Two model strings with different head characters are different. -/
theorem dangerous_reason_ne (p : Str) :
    str "Dangerous SQL pattern detected: " ++ p ≠ str "Only read queries allowed" := by
  intro h
  have h1 : (str "Dangerous SQL pattern detected: " ++ p).head? = some 'D' := rfl
  rw [h] at h1
  exact absurd h1 (by decide)

/-- The low-ratio reason starts with `L`, whatever the formatted ratio is. -/
theorem low_reason_ne (r : ℚ) :
    str "Low safety ratio: " ++ pctFmt r ++ str " safe keywords" ≠
      str "Only read queries allowed" := by
  intro h
  have h1 : (str "Low safety ratio: " ++ pctFmt r ++ str " safe keywords").head? =
      some 'L' := rfl
  rw [h] at h1
  exact absurd h1 (by decide)

/-- C1 (corrected).  The code implements a blocklist-plus-keyword-ratio
policy, not a read-only prefix policy: `"DROP TABLE students;"` is flagged
unsafe with the dangerous-pattern reason, and no input ever produces the
reason `"Only read queries allowed"` (the four possible reasons start with
`E`, `D`, `L` and `S`). -/
theorem c1_blocklist_policy :
    (is_safe_sql (str "DROP TABLE students;")).safe = false ∧
    (is_safe_sql (str "DROP TABLE students;")).reason =
      str "Dangerous SQL pattern detected: DROP\\s+TABLE" ∧
    ∀ sql : Str, (is_safe_sql sql).reason ≠ str "Only read queries allowed" := by
  refine ⟨by decide, by decide, ?_⟩
  intro sql
  unfold is_safe_sql
  split
  · decide
  · simp only []
    split
    · rename_i p hp
      exact dangerous_reason_ne p
    · split
      · split
        · exact low_reason_ne _
        · exact (by decide : str "SQL appears safe" ≠ str "Only read queries allowed")
      · split
        · exact low_reason_ne _
        · exact (by decide : str "SQL appears safe" ≠ str "Only read queries allowed")

/-- C5 counterexample.  Extraction is not a fixed point on its own output:
`"SELECT A FROM T; SQL: junk"` first extracts to `"junk"` (the generic
`SQL:`-label prefix removal of `_clean_extracted_sql` eats the statement), and
re-extracting `"junk"` yields the empty string, not `"junk"` (nor any
semicolon-normalised variant of it). -/
theorem c5_counterexample :
    (extract_sql_from_response (str "SELECT A FROM T; SQL: junk")).1 = str "junk" ∧
    (extract_sql_from_response
        (extract_sql_from_response (str "SELECT A FROM T; SQL: junk")).1).1 =
      ([] : Str) ∧
    (extract_sql_from_response
        (extract_sql_from_response (str "SELECT A FROM T; SQL: junk")).1).1 ≠
      (extract_sql_from_response (str "SELECT A FROM T; SQL: junk")).1 := by
  refine ⟨by decide, by decide, by decide⟩

/-- C5 (corrected).  Extracting from the already-clean statement
`"SELECT 1;"` returns it unchanged, and re-extraction of that output is again
a no-op; but this does not extend to all outputs of the extractor (see the
counterexample). -/
theorem c5_idempotent_on_clean :
    (extract_sql_from_response (str "SELECT 1;")).1 = str "SELECT 1;" ∧
    (extract_sql_from_response (extract_sql_from_response (str "SELECT 1;")).1).1 =
      (extract_sql_from_response (str "SELECT 1;")).1 := by
  refine ⟨by decide, by decide⟩

/-- C6 (confirmed).  `validate_and_clean` runs the safety check before the
syntax check (the syntax stage only ever appears after the safety stage in
the trace, and only when the statement was safe), and an unsafe statement
returns immediately with `is_valid = False`, without performing the `EXPLAIN`
round-trip: the syntax stage is absent and the result does not depend on the
database oracle at all. -/
theorem c6_safety_check_first (explainErr e2 : Str → Option Str) (sql : Str) :
    (Stage.syntaxS ∈ (validate_and_clean explainErr sql).2 →
      (validate_and_clean explainErr sql).2 = [Stage.safetyS, Stage.syntaxS] ∧
      (validate_and_clean explainErr sql).1.is_safe = true) ∧
    ((is_safe_sql (clean_sql sql)).safe = false →
      (validate_and_clean explainErr sql).1.is_valid = false ∧
      Stage.syntaxS ∉ (validate_and_clean explainErr sql).2 ∧
      validate_and_clean explainErr sql = validate_and_clean e2 sql) := by
  by_cases h0 : (clean_sql sql).isEmpty
  · have hr : ∀ o : Str → Option Str, validate_and_clean o sql =
        (⟨sql, clean_sql sql, false, false, some (str "No valid SQL found"), none⟩, []) := by
      intro o
      unfold validate_and_clean
      simp [h0]
    constructor
    · intro hmem
      rw [hr explainErr] at hmem
      exact absurd hmem (by simp)
    · intro _
      rw [hr explainErr, hr e2]
      exact ⟨rfl, by simp, rfl⟩
  · by_cases h1 : (is_safe_sql (clean_sql sql)).safe = false
    · have hr : ∀ o : Str → Option Str, validate_and_clean o sql =
          (⟨sql, clean_sql sql, false, false, none,
            some (is_safe_sql (clean_sql sql)).reason⟩, [Stage.safetyS]) := by
        intro o
        unfold validate_and_clean
        simp [h0, h1]
      constructor
      · intro hmem
        rw [hr explainErr] at hmem
        exact absurd hmem (by simp)
      · intro _
        rw [hr explainErr, hr e2]
        exact ⟨rfl, by simp, rfl⟩
    · constructor
      · intro _
        rcases ho : explainErr (clean_sql sql) with _ | e
        · have hr : validate_and_clean explainErr sql =
              (⟨sql, clean_sql sql, true, true, none, none⟩,
                [Stage.safetyS, Stage.syntaxS]) := by
            unfold validate_and_clean
            simp [h0, h1, ho]
          rw [hr]
          exact ⟨rfl, rfl⟩
        · have hr : validate_and_clean explainErr sql =
              (⟨sql, clean_sql sql, false, true, some e, none⟩,
                [Stage.safetyS, Stage.syntaxS]) := by
            unfold validate_and_clean
            simp [h0, h1, ho]
          rw [hr]
          exact ⟨rfl, rfl⟩
      · intro hsafe
        exact absurd hsafe h1

/-- C6 witness: `"DROP TABLE students;"` is cleaned to itself, flagged unsafe
by the dangerous-pattern check, and the validator reports it invalid without
ever reaching the syntax stage. -/
theorem c6_witness :
    (is_safe_sql (clean_sql (str "DROP TABLE students;"))).safe = false ∧
    (validate_and_clean (fun _ => none) (str "DROP TABLE students;")).1.is_valid = false ∧
    Stage.syntaxS ∉ (validate_and_clean (fun _ => none) (str "DROP TABLE students;")).2 := by
  have h := (c6_safety_check_first (fun _ => none) (fun _ => some (str "err"))
    (str "DROP TABLE students;")).2 (by decide)
  exact ⟨by decide, h.1, h.2.1⟩

/-- The multiplicity step of `finishExtract`, isolated. -/
theorem finishExtract_mult (r c : Str) (h1 : extractMainCand r = some c)
    (h2 : 1 < countChar ';' c) :
    finishExtract r = (takeUntilSub (str ";") c ++ [ ';' ], true) := by
  unfold finishExtract
  rw [h1]
  simp only [h2, if_true]

/-- C7 (corrected).  Whenever the candidate that reaches the
multiple-statement check contains more than one `;`, the extractor keeps only
the first statement and raises the non-fatal warning flag; in particular
`"SELECT 1; SELECT 2;"` extracts to `"SELECT 1;"` with the warning.  (SQL
taken verbatim from a tagged code block returns early and bypasses this
check — see the counterexample.) -/
theorem c7_first_statement :
    (∀ r c : Str, cleanCandidate r = some c → 1 < countChar ';' c →
      extract_sql_from_response r = (takeUntilSub (str ";") c ++ [ ';' ], true)) ∧
    extract_sql_from_response (str "SELECT 1; SELECT 2;") = (str "SELECT 1;", true) := by
  constructor
  · intro r c h1 h2
    unfold cleanCandidate at h1
    split at h1
    · exact absurd h1 (by simp)
    · rename_i hre
      unfold extract_sql_from_response
      rw [if_neg hre]
      split at h1
      · rename_i g hg
        split at h1
        · exact absurd h1 (by simp)
        · rename_i hcg
          simp only []
          rw [if_neg hcg]
          exact finishExtract_mult r c h1 h2
      · rename_i hg
        exact finishExtract_mult r c h1 h2
  · decide

/-- C7 witness: the scenario input, with the hypotheses of the general law
discharged concretely. -/
theorem c7_witness :
    cleanCandidate (str "SELECT 1; SELECT 2;") = some (str "SELECT 1; SELECT 2;") ∧
    1 < countChar ';' (str "SELECT 1; SELECT 2;") ∧
    extract_sql_from_response (str "SELECT 1; SELECT 2;") =
      (takeUntilSub (str ";") (str "SELECT 1; SELECT 2;") ++ [ ';' ], true) := by
  exact ⟨by decide, by decide,
    c7_first_statement.1 _ _ (by decide) (by decide)⟩

/-- C7 counterexample.  A raw text whose extracted portion holds two
`;`-terminated statements inside a tagged ```` ```sql ```` block returns both
statements and no warning: the early code-block return skips the
multiple-statement check, refuting the claim as stated for every raw text. -/
theorem c7_counterexample :
    extract_sql_from_response (str "```sql\nSELECT 1; SELECT 2;\n```") =
      (str "SELECT 1; SELECT 2;", false) ∧
    1 < countChar ';' (str "SELECT 1; SELECT 2;") := by
  refine ⟨by decide, by decide⟩

/-- C2 counterexample.  When generation fails, `generate_sql` returns, but the
fallback dictionary does not populate `schema_used`, `confidence`,
`confidence_label` or `is_safe` (and `is_safe` is not even a key of the
success dictionary), refuting "every field ... is populated". -/
theorem c2_counterexample :
    (generate_sql ⟨Except.ok [], Except.error (str "model generation failed"),
        Except.error (str "no scores"), fun _ => false⟩
      (str "list students")).schema_used = none ∧
    (generate_sql ⟨Except.ok [], Except.error (str "model generation failed"),
        Except.error (str "no scores"), fun _ => false⟩
      (str "list students")).confidence = none ∧
    (generate_sql ⟨Except.ok [], Except.error (str "model generation failed"),
        Except.error (str "no scores"), fun _ => false⟩
      (str "list students")).confidence_label = none ∧
    (generate_sql ⟨Except.ok [], Except.error (str "model generation failed"),
        Except.error (str "no scores"), fun _ => false⟩
      (str "list students")).is_safe = none ∧
    (generate_sql ⟨Except.ok [], Except.error (str "model generation failed"),
        Except.error (str "no scores"), fun _ => false⟩
      (str "list students")).sql = some (str "SELECT 1;") ∧
    (generate_sql ⟨Except.ok [], Except.error (str "model generation failed"),
        Except.error (str "no scores"), fun _ => false⟩
      (str "list students")).error = some (str "model generation failed") := by
  exact ⟨rfl, rfl, rfl, rfl, rfl, rfl⟩

/-- C2 (corrected).  Whenever the schema read or the generation call fails,
`generate_sql` returns (no exception escapes the outer try/except) the static
fallback with exactly `sql = "SELECT 1;"`, `valid = False`,
`raw_output = ""` and `error` set to the failure description; the fallback
leaves `schema_used`, `confidence`, `confidence_label` and `is_safe` absent,
and no result of `generate_sql` ever carries an `is_safe` key. -/
theorem c2_fallback_shape (env : GenEnv) (q e : Str)
    (h : pipelineFailure env = some e) :
    generate_sql env q = fallbackResult e ∧
    (fallbackResult e).sql = some (str "SELECT 1;") ∧
    (fallbackResult e).valid = some false ∧
    (fallbackResult e).error = some e ∧
    (fallbackResult e).raw_output = some ([] : Str) ∧
    (fallbackResult e).schema_used = none ∧
    (fallbackResult e).confidence = none ∧
    (fallbackResult e).confidence_label = none ∧
    (∀ (env2 : GenEnv) (q2 : Str), (generate_sql env2 q2).is_safe = none) := by
  refine ⟨?_, rfl, rfl, rfl, rfl, rfl, rfl, rfl, ?_⟩
  · unfold pipelineFailure at h
    split at h
    · rename_i e1 he
      rw [Option.some_inj] at h
      subst h
      unfold generate_sql
      rw [he]
    · rename_i s hs
      split at h
      · rename_i e1 hg
        rw [Option.some_inj] at h
        subst h
        simp only [generate_sql, hs, hg]
      · exact absurd h (by simp)
  · intro env2 q2
    unfold generate_sql
    split
    · rfl
    · simp only []
      split
      · rfl
      · rfl

/-- C2 witness: a concrete environment whose generation call fails. -/
theorem c2_witness :
    pipelineFailure ⟨Except.ok [], Except.error (str "boom"),
        Except.ok [], fun _ => true⟩ = some (str "boom") ∧
    generate_sql ⟨Except.ok [], Except.error (str "boom"),
        Except.ok [], fun _ => true⟩ (str "count students") =
      fallbackResult (str "boom") := by
  exact ⟨rfl, (c2_fallback_shape
    ⟨Except.ok [], Except.error (str "boom"), Except.ok [], fun _ => true⟩
    (str "count students") (str "boom") rfl).1⟩

/-- For a non-empty probability list the label comes from the exact average. -/
theorem calc_label_eq (probs : List ℚ) (hne : probs ≠ []) :
    (calculate_token_confidence probs).confidence_label =
      interpretConfLabel (probs.sum / (probs.length : ℚ)) := by
  unfold calculate_token_confidence
  rw [if_neg (by simp [List.isEmpty_iff, hne])]

/-- C3 (confirmed).  The confidence label is determined by the average with
inclusive lower bounds — ≥ 0.85 High, ≥ 0.65 Medium, ≥ 0.45 Low, otherwise
Very Low — and an empty probability sequence is labelled `"Unknown"`. -/
theorem c3_confidence_label (probs : List ℚ) :
    (probs = [] → (calculate_token_confidence probs).confidence_label = str "Unknown") ∧
    (probs ≠ [] →
      (0.85 ≤ probs.sum / (probs.length : ℚ) →
        (calculate_token_confidence probs).confidence_label = str "High") ∧
      (0.65 ≤ probs.sum / (probs.length : ℚ) →
        probs.sum / (probs.length : ℚ) < 0.85 →
        (calculate_token_confidence probs).confidence_label = str "Medium") ∧
      (0.45 ≤ probs.sum / (probs.length : ℚ) →
        probs.sum / (probs.length : ℚ) < 0.65 →
        (calculate_token_confidence probs).confidence_label = str "Low") ∧
      (probs.sum / (probs.length : ℚ) < 0.45 →
        (calculate_token_confidence probs).confidence_label = str "Very Low")) := by
  constructor
  · intro h
    subst h
    rfl
  · intro hne
    rw [calc_label_eq probs hne]
    refine ⟨?_, ?_, ?_, ?_⟩
    · intro h1
      unfold interpretConfLabel
      rw [if_pos h1]
    · intro h1 h2
      unfold interpretConfLabel
      rw [if_neg (not_le.mpr h2), if_pos h1]
    · intro h1 h2
      unfold interpretConfLabel
      rw [if_neg (not_le.mpr (lt_trans h2 (by norm_num))),
        if_neg (not_le.mpr h2), if_pos h1]
    · intro h1
      unfold interpretConfLabel
      rw [if_neg (not_le.mpr (lt_trans h1 (by norm_num))),
        if_neg (not_le.mpr (lt_trans h1 (by norm_num))),
        if_neg (not_le.mpr h1)]

/-- C3 witness: Scenario D — probabilities `[0.9, 0.92, 0.88]` average `0.9`
and are labelled `"High"`. -/
theorem c3_witness :
    ([0.9, 0.92, 0.88] : List ℚ) ≠ [] ∧
    (0.85 : ℚ) ≤ ([0.9, 0.92, 0.88] : List ℚ).sum /
      ((([0.9, 0.92, 0.88] : List ℚ).length : ℚ)) ∧
    (calculate_token_confidence [0.9, 0.92, 0.88]).confidence_label = str "High" := by
  have hne : ([0.9, 0.92, 0.88] : List ℚ) ≠ [] := by simp
  have havg : (0.85 : ℚ) ≤ ([0.9, 0.92, 0.88] : List ℚ).sum /
      ((([0.9, 0.92, 0.88] : List ℚ).length : ℚ)) := by
    norm_num [List.sum_cons, List.sum_nil]
  exact ⟨hne, havg, ((c3_confidence_label _).2 hne).1 havg⟩

/-- A failed validation makes `build_enhanced_prompt` raise with the
validator's message. -/
theorem build_prompt_err (cfg : PBConfig) (q ctx dbType msg : Str)
    (hv : validate_user_input cfg q = (false, some msg)) :
    build_enhanced_prompt cfg q ctx dbType = Except.error msg := by
  unfold build_enhanced_prompt
  rw [hv]
  rfl

/-- C8 (confirmed).  A question that is empty or whitespace-only is rejected
by `build_enhanced_prompt` with `InputValidationError("Query cannot be
empty")` before any prompt is produced, and more generally any question
whose stripped length is below `minQueryLength` or above the configured
`maxQueryLength` is rejected with an `InputValidationError`. -/
theorem c8_input_validation (cfg : PBConfig) (q ctx dbType : Str)
    (h : (pyStrip q).length < cfg.minQueryLength ∨
      cfg.maxQueryLength < (pyStrip q).length) :
    (∃ e, build_enhanced_prompt cfg q ctx dbType = Except.error e) ∧
    (pyStrip q = [] →
      build_enhanced_prompt cfg q ctx dbType =
        Except.error (str "Query cannot be empty")) := by
  by_cases h0 : (q.isEmpty || (pyStrip q).isEmpty) = true
  · have hv : validate_user_input cfg q = (false, some (str "Query cannot be empty")) := by
      unfold validate_user_input
      rw [if_pos h0]
    have hb := build_prompt_err cfg q ctx dbType _ hv
    exact ⟨⟨_, hb⟩, fun _ => hb⟩
  · have hse : pyStrip q ≠ [] := by
      intro hh
      simp [List.isEmpty_iff, hh] at h0
    refine ⟨?_, fun hq => absurd hq hse⟩
    by_cases hmin : (pyStrip q).length < cfg.minQueryLength
    · have hv : validate_user_input cfg q = (false, some (str "Query too short (minimum " ++
          natStr cfg.minQueryLength ++ str " characters)")) := by
        unfold validate_user_input
        rw [if_neg h0, if_pos hmin]
      exact ⟨_, build_prompt_err cfg q ctx dbType _ hv⟩
    · have hmax : cfg.maxQueryLength < (pyStrip q).length := h.resolve_left hmin
      have hv : validate_user_input cfg q = (false, some (str "Query too long (maximum " ++
          natStr cfg.maxQueryLength ++ str " characters)")) := by
        unfold validate_user_input
        rw [if_neg h0, if_neg hmin, if_pos hmax]
      exact ⟨_, build_prompt_err cfg q ctx dbType _ hv⟩

/-- C8 witness: Scenario C — the empty question. -/
theorem c8_witness :
    (pyStrip (str "")).length < defaultPB.minQueryLength ∧
    build_enhanced_prompt defaultPB (str "") (str "schema text") (str "SQLite") =
      Except.error (str "Query cannot be empty") := by
  have h := c8_input_validation defaultPB (str "") (str "schema text") (str "SQLite")
    (Or.inl (by decide))
  exact ⟨by decide, h.2 (by decide)⟩

/-- C9 (confirmed).  The rendered schema context never contains more than
`maxSchemaTables` table blocks: the rendered table list is truncated with
`take` both when relevance scoring selects tables and when the fallback to
the first `maxSchemaTables` schema keys is used, and on success the rendered
context is exactly the header plus the blocks of that capped list. -/
theorem c9_schema_table_cap (cfg : PBConfig) (s : PBSchema) (q : Str) :
    (renderedTableNames cfg s q).length ≤ cfg.maxSchemaTables ∧
    ∀ c, build_schema_context cfg s q = Except.ok c →
      c = str "No valid schema information available." ∨
      c = str "Database Schema:\n" ++
        ((renderedTableNames cfg s q).map (tableBlock s)).flatten := by
  constructor
  · unfold renderedTableNames
    refine le_trans (List.length_filter_le _ _) ?_
    rw [List.length_take]
    exact min_le_left _ _
  · intro c hc
    unfold build_schema_context at hc
    split at hc
    · simp only [Except.ok.injEq] at hc
      exact Or.inl hc.symm
    · split at hc
      · exact absurd hc (by simp)
      · simp only [Except.ok.injEq] at hc
        exact Or.inr hc.symm

/-- C9 witness: a one-table schema and a valid question render one block,
within the default cap of 10. -/
theorem c9_witness :
    (renderedTableNames defaultPB
        [(str "students", ⟨some [⟨str "id", str "INTEGER", some false⟩], []⟩)]
        (str "show all students")).length ≤ defaultPB.maxSchemaTables ∧
    (str "Database Schema:\nTable: students\n  - id (INTEGER) - NOT NULL\n\n" =
        str "No valid schema information available." ∨
      str "Database Schema:\nTable: students\n  - id (INTEGER) - NOT NULL\n\n" =
        str "Database Schema:\n" ++
          ((renderedTableNames defaultPB
              [(str "students", ⟨some [⟨str "id", str "INTEGER", some false⟩], []⟩)]
              (str "show all students")).map
            (tableBlock
              [(str "students", ⟨some [⟨str "id", str "INTEGER", some false⟩], []⟩)])).flatten) := by
  refine ⟨(c9_schema_table_cap _ _ _).1, (c9_schema_table_cap _ _ _).2 _ (by rfl)⟩

/-- The head of a `dropWhile` result does not satisfy the predicate. -/
theorem dropWhile_head_not (p : Char → Bool) :
    ∀ (l : Str) (d : Char), (l.dropWhile p).head? = some d → p d = false := by
  intro l
  induction l with
  | nil => intro d h; simp [List.dropWhile] at h
  | cons c t ih =>
    intro d h
    rw [List.dropWhile_cons] at h
    by_cases hc : p c
    · rw [if_pos hc] at h
      exact ih d h
    · rw [if_neg hc] at h
      simp only [List.head?_cons, Option.some_inj] at h
      subst h
      exact Bool.not_eq_true _ ▸ (by simpa using hc)

/-- A non-whitespace head passes through one step of `collapseWsF`. -/
theorem collapseWsF_cons_not_ws (fuel : Nat) (d : Char) (u : Str)
    (h : isPyWs d = false) :
    collapseWsF (fuel + 1) (d :: u) = d :: collapseWsF fuel u := by
  show (if isPyWs d = true then ' ' :: collapseWsF fuel (u.dropWhile isPyWs)
        else d :: collapseWsF fuel u) = d :: collapseWsF fuel u
  rw [if_neg (by simp [h])]

/-- With enough fuel, `collapseWsF` output has no two adjacent whitespace
characters. -/
theorem collapseWsF_chain : ∀ (fuel : Nat) (l : Str), l.length ≤ fuel →
    List.Chain' (fun a b => ¬(isPyWs a = true ∧ isPyWs b = true)) (collapseWsF fuel l)
  | 0, l, h => by
    have hl : l = [] := List.length_eq_zero.mp (Nat.le_zero.mp h)
    subst hl
    simp [collapseWsF]
  | fuel + 1, [], _ => by
    show List.Chain' _ ([] : Str)
    simp
  | fuel + 1, c :: t, h => by
    have hlt : t.length ≤ fuel := by
      simp only [List.length_cons] at h
      omega
    by_cases hc : isPyWs c = true
    · have hred : collapseWsF (fuel + 1) (c :: t) =
          ' ' :: collapseWsF fuel (t.dropWhile isPyWs) := by
        show (if isPyWs c = true then ' ' :: collapseWsF fuel (t.dropWhile isPyWs)
              else c :: collapseWsF fuel t) =
          ' ' :: collapseWsF fuel (t.dropWhile isPyWs)
        rw [if_pos hc]
      rw [hred, List.chain'_cons']
      have hdw : (t.dropWhile isPyWs).length ≤ fuel :=
        le_trans (List.dropWhile_sublist (l := t) isPyWs).length_le hlt
      refine ⟨?_, collapseWsF_chain fuel (t.dropWhile isPyWs) hdw⟩
      intro y hy
      rcases hd : t.dropWhile isPyWs with _ | ⟨d, u⟩
      · rw [hd] at hy
        rcases fuel with _ | f <;> simp [collapseWsF] at hy
      · have hdws : isPyWs d = false := by
          apply dropWhile_head_not isPyWs t
          rw [hd]
          rfl
        rcases fuel with _ | f
        · rw [hd] at hdw
          simp at hdw
        · rw [hd, collapseWsF_cons_not_ws f d u hdws] at hy
          simp only [List.head?_cons, Option.mem_def, Option.some_inj] at hy
          subst hy
          intro hcontra
          rw [hdws] at hcontra
          exact Bool.false_ne_true hcontra.2
    · have hred : collapseWsF (fuel + 1) (c :: t) = c :: collapseWsF fuel t := by
        show (if isPyWs c = true then ' ' :: collapseWsF fuel (t.dropWhile isPyWs)
              else c :: collapseWsF fuel t) = c :: collapseWsF fuel t
        rw [if_neg hc]
      rw [hred, List.chain'_cons']
      refine ⟨?_, collapseWsF_chain fuel t hlt⟩
      intro y _
      intro hcontra
      exact hc hcontra.1

/-- Adjacent-pair properties survive `dropWhile`. -/
theorem chain_dropWhile {R : Char → Char → Prop} (p : Char → Bool) :
    ∀ l : Str, List.Chain' R l → List.Chain' R (l.dropWhile p) := by
  intro l h
  induction l with
  | nil => simp
  | cons c t ih =>
    rw [List.dropWhile_cons]
    by_cases hc : p c
    · rw [if_pos hc]
      exact ih h.tail
    · rw [if_neg hc]
      exact h

/-- The no-adjacent-whitespace property survives `reverse` (the relation is
symmetric). -/
theorem chain_rev {l : Str}
    (h : List.Chain' (fun a b => ¬(isPyWs a = true ∧ isPyWs b = true)) l) :
    List.Chain' (fun a b => ¬(isPyWs a = true ∧ isPyWs b = true)) l.reverse := by
  rw [List.chain'_reverse]
  exact h.imp (fun a b hab => fun hp => hab ⟨hp.2, hp.1⟩)

/-- C10 (corrected).  Sanitized output never contains two consecutive
whitespace characters (the whitespace collapse runs last, before only a final
strip); however sanitization is neither idempotent nor free of `--`
sequences — see the counterexample. -/
theorem c10_no_double_whitespace (q : Str) :
    List.Chain' (fun a b => ¬(isPyWs a = true ∧ isPyWs b = true))
      (sanitize_user_input q) := by
  unfold sanitize_user_input
  split
  · simp
  · show List.Chain' _ (pyStrip (collapseWs
      (removeBlockComments (removeLineComments (pyStrip q)))))
    unfold pyStrip rstripP lstripP
    apply chain_rev
    apply chain_dropWhile
    apply chain_rev
    apply chain_dropWhile
    exact collapseWsF_chain _ _ le_rfl

/-- C10 counterexample.  The input "a ", dash, block comment, dash, " b"
sanitizes to `"a -- b"`: comment removal juxtaposes the two dashes, so the
output contains a double-dash sequence, and sanitizing again strips it to
`"a"`, refuting both idempotence and the absence of `--` in the output. -/
theorem c10_counterexample :
    sanitize_user_input (str "a -/*x*/- b") = str "a -- b" ∧
    containsSub (str "--") (sanitize_user_input (str "a -/*x*/- b")) = true ∧
    sanitize_user_input (sanitize_user_input (str "a -/*x*/- b")) ≠
      sanitize_user_input (str "a -/*x*/- b") := by
  refine ⟨by decide, by decide, by decide⟩

end SQLWhisper
